import Mathlib

/-!
# Shallow embedding of the Ticketing ledger (`src/main.rs`)

Machine integers: `u32`/`u64` fields are modelled as `Nat`.  Where the Rust
code uses `saturating_add`/`saturating_sub` we use `sat32add`/`sat64add` and
natural subtraction; where it uses unchecked `+=` or `*` on a fixed-width
integer we wrap with `% 2^32` / `% 2^64` (release-mode two's-complement
semantics).  This includes the four `next_*_id` counters: their unchecked
`u64 += 1` is modelled as `wrap64 (_ + 1)`.  The `HashMap`s are modelled as
association lists kept in insertion order; `HashMap` iteration order is
implementation defined and the spec leaves it unspecified, so insertion
order is one admissible concretization (only `redeem_ticket` iterates).
-/

def U32MAX : Nat := 4294967295

def U64MAX : Nat := 18446744073709551615

/-- `u32` wrap-around for Rust's unchecked `+=` on a `u32` field. -/
def wrap32 (n : Nat) : Nat := n % 4294967296

/-- `u64` wrap-around for Rust's unchecked `+=` / `*` on `u64` values. -/
def wrap64 (n : Nat) : Nat := n % 18446744073709551616

/-- Rust `u32::saturating_add`. -/
def sat32add (a b : Nat) : Nat := min (a + b) U32MAX

/-- Rust `u64::saturating_add`. -/
def sat64add (a b : Nat) : Nat := min (a + b) U64MAX

structure Artist where
  id : Nat
  name : String
  artist_type : String
  total_tickets_sold : Nat
  deriving DecidableEq, Repr

structure Venue where
  id : Nat
  name : String
  capacity : Nat
  venue_cut_bps : Nat
  next_concert_date : Option Nat
  deriving DecidableEq, Repr

structure Concert where
  id : Nat
  artist_id : Nat
  venue_id : Nat
  date_ts : Nat
  ticket_price : Nat
  total_tickets : Nat
  tickets_issued : Nat
  validated_by_artist : Bool
  validated_by_venue : Bool
  tickets_sold : Nat
  revenue : Nat
  cashed_out : Bool
  deriving DecidableEq, Repr

structure Ticket where
  id : Nat
  concert_id : Nat
  owner : Option String
  used : Bool
  price_paid : Nat
  minted_by_artist : Bool
  redeem_code : Option String
  deriving DecidableEq, Repr

/-- The ledger state (`struct Ticketing`). -/
structure Ticketing where
  next_artist_id : Nat
  next_venue_id : Nat
  next_concert_id : Nat
  next_ticket_id : Nat
  artists : List (Nat × Artist)
  venues : List (Nat × Venue)
  concerts : List (Nat × Concert)
  tickets : List (Nat × Ticket)
  balances_artist : List (Nat × Nat)
  balances_venue : List (Nat × Nat)
  deriving DecidableEq, Repr

/-- `HashMap::get`: first entry with the given key (keys are unique in every
reachable state, so "first" is exact). -/
def mlookup {α : Type} (m : List (Nat × α)) (k : Nat) : Option α :=
  match m with
  | [] => none
  | (k', v) :: rest => if k' = k then some v else mlookup rest k

/-- `HashMap::insert`: replace the entry if the key is present, else append. -/
def mput {α : Type} (m : List (Nat × α)) (k : Nat) (v : α) : List (Nat × α) :=
  match m with
  | [] => [(k, v)]
  | (k', v') :: rest => if k' = k then (k, v) :: rest else (k', v') :: mput rest k v

/-- `HashMap::get_mut` followed by a field update: rewrite the entry in place. -/
def mupdate {α : Type} (m : List (Nat × α)) (k : Nat) (f : α → α) : List (Nat × α) :=
  match m with
  | [] => []
  | (k', v) :: rest => if k' = k then (k', f v) :: rest else (k', v) :: mupdate rest k f

/-- `Ticketing::default()`: empty maps, all counters zero. -/
def initState : Ticketing :=
  { next_artist_id := 0, next_venue_id := 0, next_concert_id := 0, next_ticket_id := 0,
    artists := [], venues := [], concerts := [], tickets := [],
    balances_artist := [], balances_venue := [] }

/-- The synthesized owner string `format!("artist:{artist_id}")` in `emit_ticket`. -/
def artistOwner (artist_id : Nat) : String := "artist:" ++ toString artist_id

def create_artist (s : Ticketing) (name artist_type : String) : Nat × Ticketing :=
  let id := wrap64 (s.next_artist_id + 1)
  (id, { s with
          next_artist_id := id,
          artists := mput s.artists id
            { id := id, name := name, artist_type := artist_type, total_tickets_sold := 0 } })

def update_artist (s : Ticketing) (id : Nat) (name artist_type : String) : Ticketing :=
  { s with artists := mupdate s.artists id
              (fun a => { a with name := name, artist_type := artist_type }) }

def create_venue (s : Ticketing) (name : String) (capacity venue_cut_bps : Nat)
    (next_concert_date : Option Nat) : Nat × Ticketing :=
  let id := wrap64 (s.next_venue_id + 1)
  (id, { s with
          next_venue_id := id,
          venues := mput s.venues id
            { id := id, name := name, capacity := capacity,
              venue_cut_bps := venue_cut_bps, next_concert_date := next_concert_date } })

def update_venue (s : Ticketing) (id : Nat) (name : String) (capacity venue_cut_bps : Nat)
    (next_concert_date : Option Nat) : Ticketing :=
  { s with venues := mupdate s.venues id
              (fun v => { v with name := name, capacity := capacity,
                                 venue_cut_bps := venue_cut_bps,
                                 next_concert_date := next_concert_date }) }

def create_concert (s : Ticketing) (artist_id venue_id date_ts ticket_price total_tickets : Nat) :
    Nat × Ticketing :=
  let id := wrap64 (s.next_concert_id + 1)
  (id, { s with
          next_concert_id := id,
          concerts := mput s.concerts id
            { id := id, artist_id := artist_id, venue_id := venue_id, date_ts := date_ts,
              ticket_price := ticket_price, total_tickets := total_tickets,
              tickets_issued := 0, validated_by_artist := false, validated_by_venue := false,
              tickets_sold := 0, revenue := 0, cashed_out := false } })

def validate_concert_by_artist (s : Ticketing) (concert_id artist_id : Nat) : Ticketing :=
  { s with concerts := mupdate s.concerts concert_id
              (fun c => if c.artist_id = artist_id then { c with validated_by_artist := true } else c) }

def validate_concert_by_venue (s : Ticketing) (concert_id venue_id : Nat) : Ticketing :=
  { s with concerts := mupdate s.concerts concert_id
              (fun c => if c.venue_id = venue_id then { c with validated_by_venue := true } else c) }

def emit_ticket (s : Ticketing) (concert_id artist_id : Nat) (redeem_code : Option String) :
    Option Nat × Ticketing :=
  match mlookup s.concerts concert_id with
  | none => (none, s)
  | some concert =>
    if concert.artist_id ≠ artist_id ∨ concert.validated_by_artist = false
        ∨ concert.validated_by_venue = false then
      (none, s)
    else if concert.total_tickets ≤ concert.tickets_issued then
      (none, s)
    else
      let ticket_id := wrap64 (s.next_ticket_id + 1)
      (some ticket_id,
        { s with
          next_ticket_id := ticket_id,
          tickets := mput s.tickets ticket_id
            { id := ticket_id, concert_id := concert_id,
              owner := some (artistOwner artist_id), used := false, price_paid := 0,
              minted_by_artist := true, redeem_code := redeem_code },
          concerts := mupdate s.concerts concert_id
            (fun c => { c with tickets_issued := wrap32 (c.tickets_issued + 1) }) })

def buy_ticket (s : Ticketing) (concert_id : Nat) (buyer : String) (amount_paid : Nat) :
    Option Nat × Ticketing :=
  match mlookup s.concerts concert_id with
  | none => (none, s)
  | some concert =>
    if concert.validated_by_artist = false ∨ concert.validated_by_venue = false then
      (none, s)
    else if concert.total_tickets ≤ concert.tickets_issued then
      (none, s)
    else
      let ticket_id := wrap64 (s.next_ticket_id + 1)
      (some ticket_id,
        { s with
          next_ticket_id := ticket_id,
          concerts := mupdate s.concerts concert_id (fun c =>
            { c with
              tickets_sold := sat32add c.tickets_sold 1,
              tickets_issued := sat32add c.tickets_issued 1,
              revenue := sat64add c.revenue amount_paid }),
          tickets := mput s.tickets ticket_id
            { id := ticket_id, concert_id := concert_id, owner := some buyer,
              used := false, price_paid := amount_paid, minted_by_artist := false,
              redeem_code := none },
          artists := mupdate s.artists concert.artist_id (fun a =>
            { a with total_tickets_sold := wrap32 (a.total_tickets_sold + 1) }) })

def transfer_ticket (s : Ticketing) (ticket_id : Nat) (fromOwner toOwner : String) :
    Bool × Ticketing :=
  match mlookup s.tickets ticket_id with
  | none => (false, s)
  | some t =>
    if t.owner = some fromOwner ∧ t.used = false then
      (true, { s with tickets := mupdate s.tickets ticket_id
                          (fun t => { t with owner := some toOwner }) })
    else (false, s)

def use_ticket (s : Ticketing) (ticket_id : Nat) (owner : String) (now_ts : Nat) :
    Bool × Ticketing :=
  match mlookup s.tickets ticket_id with
  | none => (false, s)
  | some t =>
    if t.owner = some owner ∧ t.used = false then
      match mlookup s.concerts t.concert_id with
      | none => (false, s)
      | some c =>
        if c.validated_by_artist = true ∧ c.validated_by_venue = true then
          if c.date_ts - 86400 ≤ now_ts ∧ now_ts ≤ c.date_ts then
            (true, { s with tickets := mupdate s.tickets ticket_id
                                (fun t => { t with used := true }) })
          else (false, s)
        else (false, s)
    else (false, s)

/-- The bps the settlement uses: `self.venues.get(&venue_id).map(|v| v.venue_cut_bps).unwrap_or(0)`. -/
def venueBps (s : Ticketing) (venue_id : Nat) : Nat :=
  match mlookup s.venues venue_id with
  | some v => v.venue_cut_bps
  | none => 0

/-- `*balances.entry(k).or_default() += amount` (unchecked `u64` addition). -/
def credit (m : List (Nat × Nat)) (k : Nat) (amount : Nat) : List (Nat × Nat) :=
  match mlookup m k with
  | some _ => mupdate m k (fun b => wrap64 (b + amount))
  | none => mput m k (wrap64 amount)

def cash_out (s : Ticketing) (concert_id now_ts : Nat) : Bool × Ticketing :=
  match mlookup s.concerts concert_id with
  | none => (false, s)
  | some c =>
    if c.cashed_out = true ∨ now_ts < c.date_ts then (false, s)
    else
      let venue_cut := wrap64 (c.revenue * venueBps s c.venue_id) / 10000
      let artist_cut := c.revenue - venue_cut
      (true,
        { s with
          balances_artist := credit s.balances_artist c.artist_id artist_cut,
          balances_venue := credit s.balances_venue c.venue_id venue_cut,
          concerts := mupdate s.concerts concert_id (fun c => { c with cashed_out := true }) })

def trade_ticket (s : Ticketing) (ticket_id : Nat) (seller buyer : String) (price : Nat) :
    Bool × Ticketing :=
  match mlookup s.tickets ticket_id with
  | none => (false, s)
  | some t =>
    if t.owner ≠ some seller ∨ t.used = true then (false, s)
    else if t.price_paid < price then (false, s)
    else
      (true, { s with tickets := mupdate s.tickets ticket_id
                          (fun t => { t with owner := some buyer, price_paid := price }) })

def distribute_ticket (s : Ticketing) (concert_id artist_id : Nat) (redeem_code : String) :
    Option Nat × Ticketing :=
  match mlookup s.concerts concert_id with
  | none => (none, s)
  | some concert =>
    if concert.artist_id ≠ artist_id ∨ concert.validated_by_artist = false
        ∨ concert.validated_by_venue = false then
      (none, s)
    else if concert.total_tickets ≤ concert.tickets_issued then
      (none, s)
    else
      let ticket_id := wrap64 (s.next_ticket_id + 1)
      (some ticket_id,
        { s with
          next_ticket_id := ticket_id,
          concerts := mupdate s.concerts concert_id
            (fun c => { c with tickets_issued := sat32add c.tickets_issued 1 }),
          tickets := mput s.tickets ticket_id
            { id := ticket_id, concert_id := concert_id, owner := none, used := false,
              price_paid := 0, minted_by_artist := true,
              redeem_code := some redeem_code } })

/-- `tickets.iter_mut().find(|t| t.owner.is_none() && t.redeem_code == code)`, updating the
found ticket's owner in place. -/
def redeemList (l : List (Nat × Ticket)) (code user : String) :
    Option Nat × List (Nat × Ticket) :=
  match l with
  | [] => (none, [])
  | (k, t) :: rest =>
    if t.owner = none ∧ t.redeem_code = some code then
      (some k, (k, { t with owner := some user }) :: rest)
    else
      let r := redeemList rest code user
      (r.1, (k, t) :: r.2)

def redeem_ticket (s : Ticketing) (code user : String) : Option Nat × Ticketing :=
  let r := redeemList s.tickets code user
  (r.1, { s with tickets := r.2 })

def ticket_owner (s : Ticketing) (ticket_id : Nat) : Option String :=
  match mlookup s.tickets ticket_id with
  | some t => t.owner
  | none => none

def balance_artist (s : Ticketing) (artist_id : Nat) : Nat :=
  (mlookup s.balances_artist artist_id).getD 0

def balance_venue (s : Ticketing) (venue_id : Nat) : Nat :=
  (mlookup s.balances_venue venue_id).getD 0

/-- One ledger call, for quantifying over arbitrary operation sequences. -/
inductive Op where
  | createArtist (name artist_type : String)
  | updateArtist (id : Nat) (name artist_type : String)
  | createVenue (name : String) (capacity bps : Nat) (next_date : Option Nat)
  | updateVenue (id : Nat) (name : String) (capacity bps : Nat) (next_date : Option Nat)
  | createConcert (artist_id venue_id date_ts price total : Nat)
  | validateByArtist (concert_id artist_id : Nat)
  | validateByVenue (concert_id venue_id : Nat)
  | emitTicket (concert_id artist_id : Nat) (code : Option String)
  | buyTicket (concert_id : Nat) (buyer : String) (amount : Nat)
  | transferTicket (ticket_id : Nat) (fromOwner toOwner : String)
  | useTicket (ticket_id : Nat) (owner : String) (now : Nat)
  | cashOut (concert_id now : Nat)
  | tradeTicket (ticket_id : Nat) (seller buyer : String) (price : Nat)
  | distributeTicket (concert_id artist_id : Nat) (code : String)
  | redeemTicket (code user : String)
  deriving DecidableEq, Repr

/-- Apply one call to the ledger, discarding the returned value. -/
def step (s : Ticketing) (op : Op) : Ticketing :=
  match op with
  | .createArtist n t => (create_artist s n t).2
  | .updateArtist i n t => update_artist s i n t
  | .createVenue n c b d => (create_venue s n c b d).2
  | .updateVenue i n c b d => update_venue s i n c b d
  | .createConcert a v d p t => (create_concert s a v d p t).2
  | .validateByArtist c a => validate_concert_by_artist s c a
  | .validateByVenue c v => validate_concert_by_venue s c v
  | .emitTicket c a code => (emit_ticket s c a code).2
  | .buyTicket c b amt => (buy_ticket s c b amt).2
  | .transferTicket t f o => (transfer_ticket s t f o).2
  | .useTicket t o n => (use_ticket s t o n).2
  | .cashOut c n => (cash_out s c n).2
  | .tradeTicket t sl b p => (trade_ticket s t sl b p).2
  | .distributeTicket c a code => (distribute_ticket s c a code).2
  | .redeemTicket code u => (redeem_ticket s code u).2

/-- Run a sequence of calls from a state. -/
def run (s : Ticketing) (ops : List Op) : Ticketing := ops.foldl step s

/-! ## Association-list map lemmas -/

theorem mlookup_mput {α : Type} (m : List (Nat × α)) (k k' : Nat) (v : α) :
    mlookup (mput m k v) k' = if k = k' then some v else mlookup m k' := by
  induction m with
  | nil => by_cases h : k = k' <;> simp [mput, mlookup, h]
  | cons p rest ih =>
    obtain ⟨k₀, v₀⟩ := p
    by_cases h1 : k₀ = k <;> by_cases h2 : k = k' <;>
      simp_all [mput, mlookup]

theorem mlookup_mupdate {α : Type} (m : List (Nat × α)) (k k' : Nat) (f : α → α) :
    mlookup (mupdate m k f) k' =
      if k = k' then (mlookup m k').map f else mlookup m k' := by
  induction m with
  | nil => by_cases h : k = k' <;> simp [mupdate, mlookup, h]
  | cons p rest ih =>
    obtain ⟨k₀, v₀⟩ := p
    by_cases h1 : k₀ = k <;> by_cases h2 : k = k' <;>
      simp_all [mupdate, mlookup]

/-! ## Concrete demonstration states (used by the witness theorems) -/

/-- The setup used by the repository's own tests: one artist, one venue with
`venue_cut_bps = 1000`, one concert at `date_ts = 1000000` with a supply of two
tickets, validated by both parties. -/
def demoSetup : List Op :=
  [.createArtist "Artist" "band", .createVenue "Venue" 1000 1000 none,
   .createConcert 1 1 1000000 100 2, .validateByArtist 1 1, .validateByVenue 1 1]

def demoValidated : Ticketing := run initState demoSetup

/-- Same setup but with only the artist-side validation flag set. -/
def demoHalf : Ticketing :=
  run initState [.createArtist "Artist" "band", .createVenue "Venue" 1000 1000 none,
    .createConcert 1 1 1000000 100 2, .validateByArtist 1 1]

/-- `demoValidated` after both tickets have been sold: the supply is saturated. -/
def demoFull : Ticketing :=
  (buy_ticket (buy_ticket demoValidated 1 "alice" 100).2 1 "bob" 100).2

def demoHalfConcert : Concert :=
  { id := 1, artist_id := 1, venue_id := 1, date_ts := 1000000, ticket_price := 100,
    total_tickets := 2, tickets_issued := 0, validated_by_artist := true,
    validated_by_venue := false, tickets_sold := 0, revenue := 0, cashed_out := false }

def demoValidConcert : Concert :=
  { id := 1, artist_id := 1, venue_id := 1, date_ts := 1000000, ticket_price := 100,
    total_tickets := 2, tickets_issued := 0, validated_by_artist := true,
    validated_by_venue := true, tickets_sold := 0, revenue := 0, cashed_out := false }

def demoFullConcert : Concert :=
  { id := 1, artist_id := 1, venue_id := 1, date_ts := 1000000, ticket_price := 100,
    total_tickets := 2, tickets_issued := 2, validated_by_artist := true,
    validated_by_venue := true, tickets_sold := 2, revenue := 200, cashed_out := false }

/-! ## C2: dual validation gate -/

/-- **C2.** For every concert, each of `emit_ticket`, `buy_ticket` and
`distribute_ticket` returns `None` (creates no ticket) unless both
`validated_by_artist` and `validated_by_venue` are true on that concert;
setting only one of the two flags is insufficient for any of the three to
succeed. -/
theorem dual_validation_gate (s : Ticketing) (concert_id : Nat) (c : Concert)
    (hc : mlookup s.concerts concert_id = some c)
    (hflags : ¬(c.validated_by_artist = true ∧ c.validated_by_venue = true)) :
    (∀ artist_id code, (emit_ticket s concert_id artist_id code).1 = none) ∧
    (∀ buyer amount, (buy_ticket s concert_id buyer amount).1 = none) ∧
    (∀ artist_id code, (distribute_ticket s concert_id artist_id code).1 = none) := by
  have h' : c.validated_by_artist = false ∨ c.validated_by_venue = false := by
    cases hva : c.validated_by_artist <;> cases hvv : c.validated_by_venue <;> simp_all
  refine ⟨fun artist_id code => ?_, fun buyer amount => ?_, fun artist_id code => ?_⟩ <;>
    rcases h' with h | h <;>
      simp [emit_ticket, buy_ticket, distribute_ticket, hc, h]

/-- Witness for C2: with only the artist flag set on the demo concert, all three
issuance operations reject. -/
theorem dual_validation_gate_witness :
    (emit_ticket demoHalf 1 1 none).1 = none ∧
    (buy_ticket demoHalf 1 "zoe" 5).1 = none ∧
    (distribute_ticket demoHalf 1 1 "C").1 = none := by
  obtain ⟨h1, h2, h3⟩ := dual_validation_gate demoHalf 1 demoHalfConcert rfl (by decide)
  exact ⟨h1 1 none, h2 "zoe" 5, h3 1 "C"⟩

/-! ## C10: buy_ticket ignores ticket_price -/

/-- **C10.** `buy_ticket` never compares `amount_paid` to the concert's
`ticket_price`: for every dual-validated concert with remaining supply,
`buy_ticket` succeeds for any `amount_paid` value (in particular the outcome is
the same for every amount, so paying `0` or an amount different from
`ticket_price` succeeds all the same) and records `price_paid = amount_paid` on
the new ticket. -/
theorem buy_ticket_ignores_ticket_price (s : Ticketing) (concert_id : Nat) (buyer : String)
    (amount_paid : Nat) (c : Concert)
    (hc : mlookup s.concerts concert_id = some c)
    (hva : c.validated_by_artist = true) (hvv : c.validated_by_venue = true)
    (hsupply : c.tickets_issued < c.total_tickets) :
    (buy_ticket s concert_id buyer amount_paid).1 = some (wrap64 (s.next_ticket_id + 1)) ∧
    mlookup (buy_ticket s concert_id buyer amount_paid).2.tickets
        (wrap64 (s.next_ticket_id + 1)) =
      some { id := wrap64 (s.next_ticket_id + 1), concert_id := concert_id,
             owner := some buyer, used := false, price_paid := amount_paid,
             minted_by_artist := false, redeem_code := none } ∧
    (∀ amount' : Nat,
      (buy_ticket s concert_id buyer amount').1 = (buy_ticket s concert_id buyer amount_paid).1) := by
  have hns : ¬ c.total_tickets ≤ c.tickets_issued := Nat.not_le.mpr hsupply
  refine ⟨?_, ?_, fun amount' => ?_⟩ <;>
    simp [buy_ticket, hc, hva, hvv, hns, mlookup_mput]

/-- Witness for C10: on the validated demo concert (whose `ticket_price` is
`100`), buying for `0` succeeds and records `price_paid = 0`. -/
theorem buy_ticket_ignores_ticket_price_witness :
    (buy_ticket demoValidated 1 "zoe" 0).1 = some 1 ∧
    mlookup (buy_ticket demoValidated 1 "zoe" 0).2.tickets 1 =
      some { id := 1, concert_id := 1, owner := some "zoe", used := false, price_paid := 0,
             minted_by_artist := false, redeem_code := none } ∧
    (buy_ticket demoValidated 1 "zoe" 250).1 = (buy_ticket demoValidated 1 "zoe" 0).1 := by
  obtain ⟨h1, h2, h3⟩ :=
    buy_ticket_ignores_ticket_price demoValidated 1 "zoe" 0 demoValidConcert rfl rfl rfl
      (by decide)
  exact ⟨h1, h2, h3 250⟩

/-! ## Failure cases mutate nothing (helpers for C7) -/

theorem emit_ticket_none_eq (s : Ticketing) (cid aid : Nat) (code : Option String)
    (h : (emit_ticket s cid aid code).1 = none) : (emit_ticket s cid aid code).2 = s := by
  rcases hm : mlookup s.concerts cid with _ | c
  · simp [emit_ticket, hm]
  · simp only [emit_ticket, hm] at h ⊢
    split_ifs at h ⊢ <;> simp_all

theorem buy_ticket_none_eq (s : Ticketing) (cid : Nat) (b : String) (amt : Nat)
    (h : (buy_ticket s cid b amt).1 = none) : (buy_ticket s cid b amt).2 = s := by
  rcases hm : mlookup s.concerts cid with _ | c
  · simp [buy_ticket, hm]
  · simp only [buy_ticket, hm] at h ⊢
    split_ifs at h ⊢ <;> simp_all

theorem distribute_ticket_none_eq (s : Ticketing) (cid aid : Nat) (code : String)
    (h : (distribute_ticket s cid aid code).1 = none) :
    (distribute_ticket s cid aid code).2 = s := by
  rcases hm : mlookup s.concerts cid with _ | c
  · simp [distribute_ticket, hm]
  · simp only [distribute_ticket, hm] at h ⊢
    split_ifs at h ⊢ <;> simp_all

theorem transfer_ticket_false_eq (s : Ticketing) (tid : Nat) (f t : String)
    (h : (transfer_ticket s tid f t).1 = false) : (transfer_ticket s tid f t).2 = s := by
  rcases hm : mlookup s.tickets tid with _ | tk
  · simp [transfer_ticket, hm]
  · simp only [transfer_ticket, hm] at h ⊢
    split_ifs at h ⊢ <;> simp_all

theorem trade_ticket_false_eq (s : Ticketing) (tid : Nat) (sl b : String) (p : Nat)
    (h : (trade_ticket s tid sl b p).1 = false) : (trade_ticket s tid sl b p).2 = s := by
  rcases hm : mlookup s.tickets tid with _ | tk
  · simp [trade_ticket, hm]
  · simp only [trade_ticket, hm] at h ⊢
    split_ifs at h ⊢ <;> simp_all

theorem redeemList_none_eq (l : List (Nat × Ticket)) (code user : String)
    (h : (redeemList l code user).1 = none) : (redeemList l code user).2 = l := by
  induction l with
  | nil => rfl
  | cons p rest ih =>
    obtain ⟨k, t⟩ := p
    by_cases hp : t.owner = none ∧ t.redeem_code = some code
    · exfalso; simp [redeemList, hp] at h
    · simp [redeemList, hp] at h ⊢
      exact ih h

theorem redeem_ticket_none_eq (s : Ticketing) (code user : String)
    (h : (redeem_ticket s code user).1 = none) : (redeem_ticket s code user).2 = s := by
  unfold redeem_ticket at h ⊢
  have := redeemList_none_eq s.tickets code user h
  simp [this]

theorem use_ticket_false_eq (s : Ticketing) (tid : Nat) (o : String) (now : Nat)
    (h : (use_ticket s tid o now).1 = false) : (use_ticket s tid o now).2 = s := by
  rcases hm : mlookup s.tickets tid with _ | t
  · simp [use_ticket, hm]
  · by_cases h1 : t.owner = some o ∧ t.used = false
    · rcases hc : mlookup s.concerts t.concert_id with _ | c
      · simp [use_ticket, hm, h1, hc]
      · simp only [use_ticket, hm] at h ⊢
        rw [if_pos h1] at h ⊢
        simp only [hc] at h ⊢
        split_ifs at h ⊢ <;> simp_all
    · simp [use_ticket, hm, h1]

theorem cash_out_false_eq (s : Ticketing) (cid now : Nat)
    (h : (cash_out s cid now).1 = false) : (cash_out s cid now).2 = s := by
  rcases hm : mlookup s.concerts cid with _ | c
  · simp [cash_out, hm]
  · simp only [cash_out, hm] at h ⊢
    split_ifs at h ⊢ <;> simp_all

/-! ## C7: no partial mutation on a rejected call -/

/-- **C7.** Every state-changing operation that can be rejected (`emit_ticket`,
`buy_ticket`, `distribute_ticket`, `transfer_ticket`, `trade_ticket`,
`redeem_ticket`, `use_ticket`, `cash_out`) leaves the entire ledger state
unchanged whenever it returns `None`/`false`: no partial mutation occurs on a
rejected call. -/
theorem rejected_call_no_mutation (s : Ticketing) :
    (∀ cid aid code, (emit_ticket s cid aid code).1 = none →
      (emit_ticket s cid aid code).2 = s) ∧
    (∀ cid b amt, (buy_ticket s cid b amt).1 = none → (buy_ticket s cid b amt).2 = s) ∧
    (∀ cid aid code, (distribute_ticket s cid aid code).1 = none →
      (distribute_ticket s cid aid code).2 = s) ∧
    (∀ tid f t, (transfer_ticket s tid f t).1 = false → (transfer_ticket s tid f t).2 = s) ∧
    (∀ tid sl b p, (trade_ticket s tid sl b p).1 = false → (trade_ticket s tid sl b p).2 = s) ∧
    (∀ code u, (redeem_ticket s code u).1 = none → (redeem_ticket s code u).2 = s) ∧
    (∀ tid o now, (use_ticket s tid o now).1 = false → (use_ticket s tid o now).2 = s) ∧
    (∀ cid now, (cash_out s cid now).1 = false → (cash_out s cid now).2 = s) :=
  ⟨fun cid aid code => emit_ticket_none_eq s cid aid code,
   fun cid b amt => buy_ticket_none_eq s cid b amt,
   fun cid aid code => distribute_ticket_none_eq s cid aid code,
   fun tid f t => transfer_ticket_false_eq s tid f t,
   fun tid sl b p => trade_ticket_false_eq s tid sl b p,
   fun code u => redeem_ticket_none_eq s code u,
   fun tid o now => use_ticket_false_eq s tid o now,
   fun cid now => cash_out_false_eq s cid now⟩

/-- Witness for C7: on the empty ledger every operation is rejected and the
state is exactly the initial state afterwards. -/
theorem rejected_call_no_mutation_witness :
    (emit_ticket initState 1 1 none).2 = initState ∧
    (buy_ticket initState 1 "b" 5).2 = initState ∧
    (distribute_ticket initState 1 1 "C").2 = initState ∧
    (transfer_ticket initState 1 "a" "b").2 = initState ∧
    (trade_ticket initState 1 "a" "b" 3).2 = initState ∧
    (redeem_ticket initState "C" "u").2 = initState ∧
    (use_ticket initState 1 "a" 7).2 = initState ∧
    (cash_out initState 1 7).2 = initState := by
  obtain ⟨h1, h2, h3, h4, h5, h6, h7, h8⟩ := rejected_call_no_mutation initState
  exact ⟨h1 1 1 none rfl, h2 1 "b" 5 rfl, h3 1 1 "C" rfl, h4 1 "a" "b" rfl,
    h5 1 "a" "b" 3 rfl, h6 "C" "u" rfl, h7 1 "a" 7 rfl, h8 1 7 rfl⟩

/-! ## C5: trade_ticket and the price ceiling -/

/-- The `price_paid` recorded on a ticket (`0` if the ticket does not exist). -/
def pricePaidAt (s : Ticketing) (tid : Nat) : Nat :=
  match mlookup s.tickets tid with
  | some t => t.price_paid
  | none => 0

/-- A chain of `trade_ticket` calls on one ticket. -/
def runTrades (s : Ticketing) (tid : Nat) (trades : List (String × String × Nat)) : Ticketing :=
  trades.foldl (fun st tr => (trade_ticket st tid tr.1 tr.2.1 tr.2.2).2) s

theorem trade_ticket_price_mono (s : Ticketing) (tid : Nat) (sl b : String) (p : Nat) :
    pricePaidAt (trade_ticket s tid sl b p).2 tid ≤ pricePaidAt s tid := by
  rcases hm : mlookup s.tickets tid with _ | t
  · simp [trade_ticket, hm]
  · simp only [trade_ticket, hm]
    split_ifs with h1 h2
    · simp [pricePaidAt, hm]
    · simp [pricePaidAt, hm]
    · simp [pricePaidAt, hm, mlookup_mupdate]
      omega

theorem runTrades_price_mono (s : Ticketing) (tid : Nat)
    (trades : List (String × String × Nat)) :
    pricePaidAt (runTrades s tid trades) tid ≤ pricePaidAt s tid := by
  induction trades generalizing s with
  | nil => exact Nat.le_refl _
  | cons tr rest ih =>
    calc pricePaidAt (runTrades (trade_ticket s tid tr.1 tr.2.1 tr.2.2).2 tid rest) tid
        ≤ pricePaidAt (trade_ticket s tid tr.1 tr.2.1 tr.2.2).2 tid := ih _
      _ ≤ pricePaidAt s tid := trade_ticket_price_mono s tid tr.1 tr.2.1 tr.2.2

/-- **C5.** `trade_ticket(ticket_id, seller, buyer, price)` returns `true` iff
the ticket exists, its owner equals `seller`, it is not used, and
`price ≤ price_paid`; on success it sets `owner = buyer` and
`price_paid = price` (so along any chain of trades on one ticket `price_paid`
is non-increasing); on failure the ticket's owner and `price_paid` (indeed the
whole state) are unchanged. -/
theorem trade_ticket_spec (s : Ticketing) (tid : Nat) (seller buyer : String) (price : Nat) :
    ((trade_ticket s tid seller buyer price).1 = true ↔
      ∃ t, mlookup s.tickets tid = some t ∧ t.owner = some seller ∧ t.used = false ∧
        price ≤ t.price_paid) ∧
    (∀ t, mlookup s.tickets tid = some t → (trade_ticket s tid seller buyer price).1 = true →
      mlookup (trade_ticket s tid seller buyer price).2.tickets tid =
        some { t with owner := some buyer, price_paid := price }) ∧
    ((trade_ticket s tid seller buyer price).1 = false →
      (trade_ticket s tid seller buyer price).2 = s) ∧
    (∀ trades, pricePaidAt (runTrades s tid trades) tid ≤ pricePaidAt s tid) := by
  refine ⟨?_, ?_, trade_ticket_false_eq s tid seller buyer price,
    runTrades_price_mono s tid⟩
  · constructor
    · intro h
      rcases hm : mlookup s.tickets tid with _ | t
      · simp [trade_ticket, hm] at h
      · simp only [trade_ticket, hm] at h
        split_ifs at h with h1 h2
        all_goals try simp at h
        all_goals
          push_neg at h1
          exact ⟨t, rfl, h1.1, by simpa using h1.2, Nat.not_lt.mp h2⟩
    · rintro ⟨t, hm, ho, hu, hp⟩
      simp [trade_ticket, hm, ho, hu, Nat.not_lt.mpr hp]
  · intro t hm h
    simp only [trade_ticket, hm] at h ⊢
    split_ifs at h ⊢ <;> simp_all [mlookup_mupdate]

def demoTraded : Ticketing := (buy_ticket demoValidated 1 "gina" 100).2

def demoGinaTicket : Ticket :=
  { id := 1, concert_id := 1, owner := some "gina", used := false, price_paid := 100,
    minted_by_artist := false, redeem_code := none }

/-- Witness for C5: a ticket bought for `100` trades at `80` (owner and price
updated), a trade at `120` fails leaving the state unchanged, and a chain of
trades never raises `price_paid`. -/
theorem trade_ticket_spec_witness :
    (trade_ticket demoTraded 1 "gina" "helen" 80).1 = true ∧
    mlookup (trade_ticket demoTraded 1 "gina" "helen" 80).2.tickets 1 =
      some { id := 1, concert_id := 1, owner := some "helen", used := false, price_paid := 80,
             minted_by_artist := false, redeem_code := none } ∧
    (trade_ticket demoTraded 1 "gina" "helen" 120).2 = demoTraded ∧
    pricePaidAt
        (runTrades demoTraded 1 [("gina", "helen", 80), ("helen", "ian", 120), ("helen", "ian", 30)])
        1 ≤ pricePaidAt demoTraded 1 := by
  obtain ⟨hiff, heff, _, hmono⟩ := trade_ticket_spec demoTraded 1 "gina" "helen" 80
  have hsucc : (trade_ticket demoTraded 1 "gina" "helen" 80).1 = true :=
    hiff.mpr ⟨demoGinaTicket, rfl, rfl, rfl, by decide⟩
  refine ⟨hsucc, heff demoGinaTicket rfl hsucc, ?_, hmono _⟩
  exact (trade_ticket_spec demoTraded 1 "gina" "helen" 120).2.2.1 rfl

/-! ## C4: cash_out settlement -/

/-- The venue's cut as computed by `cash_out`:
`revenue * venue_cut_bps as u64 / 10_000` (the `u64` product wraps). -/
def venueCut (s : Ticketing) (c : Concert) : Nat :=
  wrap64 (c.revenue * venueBps s c.venue_id) / 10000

/-- The artist's cut: `revenue.saturating_sub(venue_cut)`. -/
def artistCut (s : Ticketing) (c : Concert) : Nat := c.revenue - venueCut s c

theorem venue_cut_le_revenue (rev bps : Nat) (h : bps ≤ 10000) :
    wrap64 (rev * bps) / 10000 ≤ rev := by
  rcases Nat.lt_or_ge (rev * bps) 18446744073709551616 with hlt | hge
  · rw [wrap64, Nat.mod_eq_of_lt hlt]
    calc rev * bps / 10000 ≤ rev * 10000 / 10000 :=
          Nat.div_le_div_right (Nat.mul_le_mul_left rev h)
      _ = rev := Nat.mul_div_cancel rev (by norm_num)
  · have h1 : 18446744073709551616 ≤ rev * 10000 :=
      le_trans hge (Nat.mul_le_mul_left rev h)
    have h2 : wrap64 (rev * bps) < 18446744073709551616 :=
      Nat.mod_lt _ (by norm_num)
    set x := wrap64 (rev * bps) with hx
    omega

theorem balance_credit (m : List (Nat × Nat)) (k a : Nat) :
    mlookup (credit m k a) k = some (wrap64 ((mlookup m k).getD 0 + a)) := by
  unfold credit
  rcases hm : mlookup m k with _ | b
  · simp [mlookup_mput, hm]
  · simp [mlookup_mupdate, hm]

/-- **C4.** `cash_out(concert_id, now_ts)` returns `true` iff the concert
exists, `cashed_out` is false and `now_ts ≥ date_ts`; on success it computes
`venue_cut = revenue * venue_cut_bps / 10000` (truncating division on the
`u64` product) and `artist_cut = revenue - venue_cut` (saturating), adds the
cuts to the artist's and venue's existing balances (the code's unchecked `u64`
addition), and sets `cashed_out = true` so that any second call on the concert
returns `false`; for `venue_cut_bps ≤ 10000`, `venue_cut + artist_cut =
revenue`. -/
theorem cash_out_settlement (s : Ticketing) (concert_id now_ts : Nat) :
    ((cash_out s concert_id now_ts).1 = true ↔
      ∃ c, mlookup s.concerts concert_id = some c ∧ c.cashed_out = false ∧
        c.date_ts ≤ now_ts) ∧
    (∀ c, mlookup s.concerts concert_id = some c → c.cashed_out = false →
      c.date_ts ≤ now_ts →
        balance_artist (cash_out s concert_id now_ts).2 c.artist_id =
          wrap64 (balance_artist s c.artist_id + artistCut s c) ∧
        balance_venue (cash_out s concert_id now_ts).2 c.venue_id =
          wrap64 (balance_venue s c.venue_id + venueCut s c) ∧
        mlookup (cash_out s concert_id now_ts).2.concerts concert_id =
          some { c with cashed_out := true } ∧
        (∀ now', (cash_out (cash_out s concert_id now_ts).2 concert_id now').1 = false)) ∧
    (∀ c, venueBps s c.venue_id ≤ 10000 → venueCut s c + artistCut s c = c.revenue) := by
  refine ⟨⟨?_, ?_⟩, ?_, ?_⟩
  · intro h
    rcases hc : mlookup s.concerts concert_id with _ | c
    · simp [cash_out, hc] at h
    · simp only [cash_out, hc] at h
      split_ifs at h with h1
      all_goals try simp at h
      all_goals
        push_neg at h1
        exact ⟨c, rfl, by simpa using h1.1, h1.2⟩
  · rintro ⟨c, hc, h1, h2⟩
    simp [cash_out, hc, h1, Nat.not_lt.mpr h2]
  · intro c hc h1 h2
    have hcond : ¬(c.cashed_out = true ∨ now_ts < c.date_ts) := by
      push_neg
      exact ⟨by simp [h1], h2⟩
    refine ⟨?_, ?_, ?_, ?_⟩
    · simp only [cash_out, hc]
      rw [if_neg hcond]
      simp [balance_artist, balance_credit, venueCut, artistCut]
    · simp only [cash_out, hc]
      rw [if_neg hcond]
      simp [balance_venue, balance_credit, venueCut, artistCut]
    · simp only [cash_out, hc]
      rw [if_neg hcond]
      simp [mlookup_mupdate, hc]
    · intro now'
      have hc' : mlookup (cash_out s concert_id now_ts).2.concerts concert_id =
          some { c with cashed_out := true } := by
        simp only [cash_out, hc]
        rw [if_neg hcond]
        simp [mlookup_mupdate, hc]
      generalize (cash_out s concert_id now_ts).2 = s' at hc'
      simp [cash_out, hc']
  · intro c hbps
    have h : venueCut s c ≤ c.revenue :=
      venue_cut_le_revenue c.revenue (venueBps s c.venue_id) hbps
    unfold artistCut
    omega

def demoSoldConcert : Concert :=
  { id := 1, artist_id := 1, venue_id := 1, date_ts := 1000000, ticket_price := 100,
    total_tickets := 2, tickets_issued := 1, validated_by_artist := true,
    validated_by_venue := true, tickets_sold := 1, revenue := 100, cashed_out := false }

/-- Witness for C4: settling the demo concert (revenue `100`, venue cut
`1000` bps) at its event date credits `90` to the artist and `10` to the
venue, the two cuts sum to the revenue, and a second `cash_out` fails. -/
theorem cash_out_settlement_witness :
    (cash_out demoTraded 1 1000000).1 = true ∧
    balance_artist (cash_out demoTraded 1 1000000).2 1 = 90 ∧
    balance_venue (cash_out demoTraded 1 1000000).2 1 = 10 ∧
    (cash_out (cash_out demoTraded 1 1000000).2 1 2000000).1 = false ∧
    venueCut demoTraded demoSoldConcert + artistCut demoTraded demoSoldConcert = 100 := by
  obtain ⟨hiff, heff, hsum⟩ := cash_out_settlement demoTraded 1 1000000
  obtain ⟨hba, hbv, _, hsecond⟩ := heff demoSoldConcert rfl rfl (by decide)
  exact ⟨hiff.mpr ⟨demoSoldConcert, rfl, rfl, by decide⟩, hba, hbv, hsecond 2000000,
    hsum demoSoldConcert (by decide)⟩

/-! ## C9: cash_out with an unregistered venue -/

/-- **C9.** If `cash_out` succeeds on a concert whose `venue_id` is not a
registered venue, the computation uses `venue_cut_bps = 0`: the artist's
balance is credited the full revenue, the (unknown) venue's balance is
credited `0`, and the call still returns `true`. -/
theorem cash_out_unknown_venue (s : Ticketing) (concert_id now_ts : Nat) (c : Concert)
    (hc : mlookup s.concerts concert_id = some c)
    (hv : mlookup s.venues c.venue_id = none)
    (h1 : c.cashed_out = false) (h2 : c.date_ts ≤ now_ts) :
    (cash_out s concert_id now_ts).1 = true ∧
    balance_artist (cash_out s concert_id now_ts).2 c.artist_id =
      wrap64 (balance_artist s c.artist_id + c.revenue) ∧
    balance_venue (cash_out s concert_id now_ts).2 c.venue_id =
      wrap64 (balance_venue s c.venue_id + 0) := by
  have hcond : ¬(c.cashed_out = true ∨ now_ts < c.date_ts) := by
    push_neg
    exact ⟨by simp [h1], h2⟩
  have hbps : venueBps s c.venue_id = 0 := by simp [venueBps, hv]
  refine ⟨?_, ?_, ?_⟩ <;> simp only [cash_out, hc] <;> rw [if_neg hcond]
  · simp [balance_artist, balance_credit, hbps, wrap64]
  · simp [balance_venue, balance_credit, hbps, wrap64]

/-- A ledger whose only concert points at venue id `99`, which was never
created; the concert is dual-validated and one ticket was bought for `500`. -/
def demoNoVenue : Ticketing :=
  run initState [.createArtist "A" "band", .createConcert 1 99 1000 50 2,
    .validateByArtist 1 1, .validateByVenue 1 99, .buyTicket 1 "pat" 500]

def demoNoVenueConcert : Concert :=
  { id := 1, artist_id := 1, venue_id := 99, date_ts := 1000, ticket_price := 50,
    total_tickets := 2, tickets_issued := 1, validated_by_artist := true,
    validated_by_venue := true, tickets_sold := 1, revenue := 500, cashed_out := false }

/-- Witness for C9: settling the dangling-venue demo concert succeeds, pays the
artist the whole `500` revenue and pays venue `99` nothing. -/
theorem cash_out_unknown_venue_witness :
    (cash_out demoNoVenue 1 1000).1 = true ∧
    balance_artist (cash_out demoNoVenue 1 1000).2 1 = 500 ∧
    balance_venue (cash_out demoNoVenue 1 1000).2 99 = 0 := by
  obtain ⟨h1, h2, h3⟩ := cash_out_unknown_venue demoNoVenue 1 1000 demoNoVenueConcert
    rfl rfl rfl (by decide)
  exact ⟨h1, h2, h3⟩

/-! ## C6: redeem codes -/

/-- Number of unowned tickets carrying a given redeem code (the tickets
`redeem_ticket`'s search predicate can still match). -/
def countCode (l : List (Nat × Ticket)) (code : String) : Nat :=
  (l.filter (fun p => decide (p.2.owner = none ∧ p.2.redeem_code = some code))).length

/-- The demo ledger after `distribute_ticket` was called twice with the same
redeem code `"X"` (the supply cap of two permits both). -/
def demoDup : Ticketing :=
  run initState (demoSetup ++ [.distributeTicket 1 1 "X", .distributeTicket 1 1 "X"])

/-- **Counterexample to C6 as stated.** After a successful
`redeem_ticket("X", "u")` (which assigns an owner to ticket `1`), a later
`redeem_ticket` call with the same code does NOT return `None`: it succeeds
again, redeeming ticket `2`, because `distribute_ticket` was called twice with
the code `"X"` and the match predicate only requires an unowned ticket whose
stored code matches. -/
theorem redeem_twice_counterexample :
    (redeem_ticket demoDup "X" "u").1 = some 1 ∧
    (redeem_ticket (redeem_ticket demoDup "X" "u").2 "X" "v").1 = some 2 := by
  constructor <;> rfl

theorem redeemList_none_iff (l : List (Nat × Ticket)) (code user : String) :
    (redeemList l code user).1 = none ↔ countCode l code = 0 := by
  induction l with
  | nil => simp [redeemList, countCode]
  | cons p rest ih =>
    obtain ⟨k, t⟩ := p
    by_cases hp : t.owner = none ∧ t.redeem_code = some code
    · simp [redeemList, countCode, hp]
    · simp only [redeemList, countCode, hp] at ih ⊢
      simp [hp, ih, countCode]

theorem countCode_cons (k : Nat) (t : Ticket) (rest : List (Nat × Ticket)) (code : String) :
    countCode ((k, t) :: rest) code =
      (if t.owner = none ∧ t.redeem_code = some code then 1 else 0) + countCode rest code := by
  by_cases hp : t.owner = none ∧ t.redeem_code = some code <;>
    simp [countCode, hp, List.filter] <;> omega

theorem redeemList_some_count (l : List (Nat × Ticket)) (code user : String) (tid : Nat)
    (h : (redeemList l code user).1 = some tid) :
    countCode (redeemList l code user).2 code = countCode l code - 1 := by
  induction l with
  | nil => simp [redeemList] at h
  | cons p rest ih =>
    obtain ⟨k, t⟩ := p
    by_cases hp : t.owner = none ∧ t.redeem_code = some code
    · simp only [redeemList, if_pos hp]
      rw [countCode_cons, countCode_cons, if_pos hp]
      have hfalse : ¬(({ t with owner := some user } : Ticket).owner = none ∧
          ({ t with owner := some user } : Ticket).redeem_code = some code) := by simp
      rw [if_neg hfalse]
      omega
    · simp only [redeemList, if_neg hp] at h ⊢
      rw [countCode_cons, countCode_cons, if_neg hp]
      have := ih h
      omega

/-- **C6 (amended).** A redeem code is single-use *per distributed ticket*: if
at most one unowned ticket in the ledger carries the code (the situation after
a single `distribute_ticket` with that code), then after a successful
`redeem_ticket` assigns an owner, any immediately subsequent `redeem_ticket`
call with the same code returns `None`.  (As stated the claim is false:
distributing the same code twice lets two redeem calls succeed, see the
counterexample.) -/
theorem redeem_once_per_code (s : Ticketing) (code user user' : String)
    (hcount : countCode s.tickets code ≤ 1)
    (hs : (redeem_ticket s code user).1 ≠ none) :
    (redeem_ticket (redeem_ticket s code user).2 code user').1 = none := by
  rcases hr : (redeem_ticket s code user).1 with _ | tid
  · exact absurd hr hs
  · have h1 : countCode (redeemList s.tickets code user).2 code =
        countCode s.tickets code - 1 :=
      redeemList_some_count s.tickets code user tid (by simpa [redeem_ticket] using hr)
    have h0 : countCode (redeemList s.tickets code user).2 code = 0 := by omega
    simp only [redeem_ticket]
    exact (redeemList_none_iff _ code user').mpr h0

/-- The demo ledger after a single `distribute_ticket` with code `"CODE"`. -/
def demoDist : Ticketing :=
  run initState (demoSetup ++ [.distributeTicket 1 1 "CODE"])

/-- Witness for the amended C6: with `"CODE"` distributed exactly once,
redeeming succeeds once and a second redeem with the same code returns
`None`. -/
theorem redeem_once_per_code_witness :
    (redeem_ticket (redeem_ticket demoDist "CODE" "carol").2 "CODE" "dave").1 = none :=
  redeem_once_per_code demoDist "CODE" "carol" "dave" (by decide) (by decide)

/-! ## C1: supply cap invariant -/

/-- Every concert's `tickets_issued` is within its supply cap `total_tickets`. -/
def supplyInv (s : Ticketing) : Prop :=
  ∀ cid c, mlookup s.concerts cid = some c → c.tickets_issued ≤ c.total_tickets

theorem transfer_ticket_concerts (s : Ticketing) (tid : Nat) (f t : String) :
    (transfer_ticket s tid f t).2.concerts = s.concerts := by
  rcases hm : mlookup s.tickets tid with _ | tk
  · simp [transfer_ticket, hm]
  · simp only [transfer_ticket, hm]
    split_ifs <;> rfl

theorem trade_ticket_concerts (s : Ticketing) (tid : Nat) (sl b : String) (p : Nat) :
    (trade_ticket s tid sl b p).2.concerts = s.concerts := by
  rcases hm : mlookup s.tickets tid with _ | tk
  · simp [trade_ticket, hm]
  · simp only [trade_ticket, hm]
    split_ifs <;> rfl

theorem use_ticket_concerts (s : Ticketing) (tid : Nat) (o : String) (now : Nat) :
    (use_ticket s tid o now).2.concerts = s.concerts := by
  rcases hm : mlookup s.tickets tid with _ | t
  · simp [use_ticket, hm]
  · rcases hc : mlookup s.concerts t.concert_id with _ | c
    · simp only [use_ticket, hm, hc]
      split_ifs <;> rfl
    · simp only [use_ticket, hm, hc]
      split_ifs <;> rfl

theorem supplyInv_step (s : Ticketing) (op : Op) (h : supplyInv s) : supplyInv (step s op) := by
  cases op with
  | createArtist n t => exact h
  | updateArtist i n t => exact h
  | createVenue n c b d => exact h
  | updateVenue i n c b d => exact h
  | createConcert a v d p t =>
    intro cid c hc
    simp only [step, create_concert] at hc
    rw [mlookup_mput] at hc
    split_ifs at hc with hk
    · cases hc
      exact Nat.zero_le _
    · exact h cid c hc
  | validateByArtist cid0 aid =>
    intro cid c hc
    simp only [step, validate_concert_by_artist] at hc
    rw [mlookup_mupdate] at hc
    split_ifs at hc with hk
    · rcases hm : mlookup s.concerts cid with _ | c0 <;> rw [hm] at hc
      · simp at hc
      · simp only [Option.map_some'] at hc
        injection hc with hc
        have h0 := h cid c0 hm
        by_cases ha : c0.artist_id = aid <;> simp [ha] at hc <;> rw [← hc] <;> exact h0
    · exact h cid c hc
  | validateByVenue cid0 vid =>
    intro cid c hc
    simp only [step, validate_concert_by_venue] at hc
    rw [mlookup_mupdate] at hc
    split_ifs at hc with hk
    · rcases hm : mlookup s.concerts cid with _ | c0 <;> rw [hm] at hc
      · simp at hc
      · simp only [Option.map_some'] at hc
        injection hc with hc
        have h0 := h cid c0 hm
        by_cases ha : c0.venue_id = vid <;> simp [ha] at hc <;> rw [← hc] <;> exact h0
    · exact h cid c hc
  | emitTicket cid0 aid code =>
    intro cid c hc
    rcases hm : mlookup s.concerts cid0 with _ | c0
    · simp only [step, emit_ticket, hm] at hc
      exact h cid c hc
    · simp only [step, emit_ticket, hm] at hc
      split_ifs at hc with h1 h2
      · exact h cid c hc
      · exact h cid c hc
      · rw [mlookup_mupdate] at hc
        split_ifs at hc with hk
        · subst hk
          rw [hm] at hc
          simp only [Option.map_some'] at hc
          injection hc with hc
          rw [← hc]
          show wrap32 (c0.tickets_issued + 1) ≤ c0.total_tickets
          unfold wrap32
          omega
        · exact h cid c hc
  | buyTicket cid0 b amt =>
    intro cid c hc
    rcases hm : mlookup s.concerts cid0 with _ | c0
    · simp only [step, buy_ticket, hm] at hc
      exact h cid c hc
    · simp only [step, buy_ticket, hm] at hc
      split_ifs at hc with h1 h2
      · exact h cid c hc
      · exact h cid c hc
      · rw [mlookup_mupdate] at hc
        split_ifs at hc with hk
        · subst hk
          rw [hm] at hc
          simp only [Option.map_some'] at hc
          injection hc with hc
          rw [← hc]
          show sat32add c0.tickets_issued 1 ≤ c0.total_tickets
          unfold sat32add U32MAX
          omega
        · exact h cid c hc
  | distributeTicket cid0 aid code =>
    intro cid c hc
    rcases hm : mlookup s.concerts cid0 with _ | c0
    · simp only [step, distribute_ticket, hm] at hc
      exact h cid c hc
    · simp only [step, distribute_ticket, hm] at hc
      split_ifs at hc with h1 h2
      · exact h cid c hc
      · exact h cid c hc
      · rw [mlookup_mupdate] at hc
        split_ifs at hc with hk
        · subst hk
          rw [hm] at hc
          simp only [Option.map_some'] at hc
          injection hc with hc
          rw [← hc]
          show sat32add c0.tickets_issued 1 ≤ c0.total_tickets
          unfold sat32add U32MAX
          omega
        · exact h cid c hc
  | cashOut cid0 now =>
    intro cid c hc
    rcases hm : mlookup s.concerts cid0 with _ | c0
    · simp only [step, cash_out, hm] at hc
      exact h cid c hc
    · simp only [step, cash_out, hm] at hc
      split_ifs at hc with h1
      · exact h cid c hc
      · rw [mlookup_mupdate] at hc
        split_ifs at hc with hk
        · subst hk
          rw [hm] at hc
          simp only [Option.map_some'] at hc
          injection hc with hc
          rw [← hc]
          exact h cid0 c0 hm
        · exact h cid c hc
  | transferTicket tid f t =>
    intro cid c hc
    rw [step, transfer_ticket_concerts] at hc
    exact h cid c hc
  | useTicket tid o now =>
    intro cid c hc
    rw [step, use_ticket_concerts] at hc
    exact h cid c hc
  | tradeTicket tid sl b p =>
    intro cid c hc
    rw [step, trade_ticket_concerts] at hc
    exact h cid c hc
  | redeemTicket code u => exact h

theorem supplyInv_run (s : Ticketing) (h : supplyInv s) (ops : List Op) :
    supplyInv (run s ops) := by
  induction ops generalizing s with
  | nil => exact h
  | cons op rest ih => exact ih (step s op) (supplyInv_step s op h)

/-- **C1.** For every concert and every sequence of operations,
`tickets_issued` never exceeds `total_tickets`; and whenever `tickets_issued`
equals `total_tickets`, each of `emit_ticket`, `buy_ticket` and
`distribute_ticket` on that concert returns `None`. -/
theorem supply_cap (ops : List Op) :
    (∀ cid c, mlookup (run initState ops).concerts cid = some c →
      c.tickets_issued ≤ c.total_tickets) ∧
    (∀ s cid c, mlookup s.concerts cid = some c →
      c.tickets_issued = c.total_tickets →
      (∀ aid code, (emit_ticket s cid aid code).1 = none) ∧
      (∀ b amt, (buy_ticket s cid b amt).1 = none) ∧
      (∀ aid code, (distribute_ticket s cid aid code).1 = none)) := by
  constructor
  · exact supplyInv_run initState (fun cid c hc => by simp [initState, mlookup] at hc) ops
  · intro s cid c hc hsat
    have hle : c.total_tickets ≤ c.tickets_issued := le_of_eq hsat.symm
    refine ⟨fun aid code => ?_, fun b amt => ?_, fun aid code => ?_⟩ <;>
      simp only [emit_ticket, buy_ticket, distribute_ticket, hc] <;>
        split_ifs <;> simp_all

/-- Witness for C1: after the demo concert's two tickets are sold the supply is
saturated, the invariant holds on the reachable state, and all three issuance
operations reject. -/
theorem supply_cap_witness :
    demoFullConcert.tickets_issued ≤ demoFullConcert.total_tickets ∧
    (emit_ticket demoFull 1 1 none).1 = none ∧
    (buy_ticket demoFull 1 "carol" 100).1 = none ∧
    (distribute_ticket demoFull 1 1 "Z").1 = none := by
  obtain ⟨hinv, hsat⟩ :=
    supply_cap (demoSetup ++ [.buyTicket 1 "alice" 100, .buyTicket 1 "bob" 100])
  obtain ⟨he, hb, hd⟩ := hsat demoFull 1 demoFullConcert rfl rfl
  exact ⟨hinv 1 demoFullConcert rfl, he 1 none, hb "carol" 100, hd 1 "Z"⟩

/-! ## C3: use_ticket, redemption window, and permanence of `used` -/

/-- Every stored ticket key is at most `next_ticket_id` (so a fresh insert
never overwrites an existing ticket).  Holds in every reachable state. -/
def ticketKeyInv (s : Ticketing) : Prop :=
  ∀ k t, mlookup s.tickets k = some t → k ≤ s.next_ticket_id

/-- Ticket `tid` exists and has been used. -/
def usedForever (s : Ticketing) (tid : Nat) : Prop :=
  ∃ t, mlookup s.tickets tid = some t ∧ t.used = true

theorem cash_out_tickets (s : Ticketing) (cid now : Nat) :
    (cash_out s cid now).2.tickets = s.tickets := by
  rcases hm : mlookup s.concerts cid with _ | c
  · simp [cash_out, hm]
  · simp only [cash_out, hm]
    split_ifs <;> rfl

theorem cash_out_next_ticket_id (s : Ticketing) (cid now : Nat) :
    (cash_out s cid now).2.next_ticket_id = s.next_ticket_id := by
  rcases hm : mlookup s.concerts cid with _ | c
  · simp [cash_out, hm]
  · simp only [cash_out, hm]
    split_ifs <;> rfl

theorem mlookup_mupdate_isSome {α : Type} (m : List (Nat × α)) (k : Nat) (f : α → α)
    (k' : Nat) (v : α) (h : mlookup (mupdate m k f) k' = some v) :
    ∃ v0, mlookup m k' = some v0 := by
  rw [mlookup_mupdate] at h
  split_ifs at h with hk
  · cases hm : mlookup m k' <;> rw [hm] at h
    · simp at h
    · exact ⟨_, rfl⟩
  · exact ⟨v, h⟩

theorem redeemList_used (l : List (Nat × Ticket)) (code user : String) (k : Nat) :
    Option.map Ticket.used (mlookup (redeemList l code user).2 k) =
      Option.map Ticket.used (mlookup l k) := by
  induction l with
  | nil => rfl
  | cons p rest ih =>
    obtain ⟨k0, t⟩ := p
    by_cases hp : t.owner = none ∧ t.redeem_code = some code
    · simp only [redeemList, if_pos hp]
      by_cases hk : k0 = k <;> simp [mlookup, hk]
    · simp only [redeemList, if_neg hp]
      by_cases hk : k0 = k <;> simp [mlookup, hk, ih]

/-- One step preserves the key bound (while the wrapping `u64` ticket-id
counter has headroom), advances the counter by at most one, and keeps a used
ticket used. -/
theorem step_preserves_key_used (s : Ticketing) (op : Op) (hkey : ticketKeyInv s)
    (hnext : s.next_ticket_id < U64MAX) :
    ticketKeyInv (step s op) ∧
    (step s op).next_ticket_id ≤ s.next_ticket_id + 1 ∧
    ∀ tid, usedForever s tid → usedForever (step s op) tid := by
  have hwrap : wrap64 (s.next_ticket_id + 1) = s.next_ticket_id + 1 := by
    unfold wrap64
    unfold U64MAX at hnext
    omega
  cases op with
  | createArtist n t => exact ⟨hkey, Nat.le_succ _, fun tid ht => ht⟩
  | updateArtist i n t => exact ⟨hkey, Nat.le_succ _, fun tid ht => ht⟩
  | createVenue n c b d => exact ⟨hkey, Nat.le_succ _, fun tid ht => ht⟩
  | updateVenue i n c b d => exact ⟨hkey, Nat.le_succ _, fun tid ht => ht⟩
  | createConcert a v d p t => exact ⟨hkey, Nat.le_succ _, fun tid ht => ht⟩
  | validateByArtist c a => exact ⟨hkey, Nat.le_succ _, fun tid ht => ht⟩
  | validateByVenue c v => exact ⟨hkey, Nat.le_succ _, fun tid ht => ht⟩
  | cashOut cid now =>
    refine ⟨?_, ?_, ?_⟩
    · intro k t hk
      simp only [step] at hk ⊢
      rw [cash_out_tickets] at hk
      rw [cash_out_next_ticket_id]
      exact hkey k t hk
    · simp only [step]
      rw [cash_out_next_ticket_id]
      exact Nat.le_succ _
    · rintro tid ⟨t, ht, hu⟩
      refine ⟨t, ?_, hu⟩
      simp only [step]
      rw [cash_out_tickets]
      exact ht
  | emitTicket cid aid code =>
    rcases hm : mlookup s.concerts cid with _ | c0
    · refine ⟨?_, ?_, ?_⟩
      · intro k t hk
        simp only [step, emit_ticket, hm] at hk ⊢
        exact hkey k t hk
      · simp only [step, emit_ticket, hm]
        exact Nat.le_succ _
      · rintro tid ⟨t, ht, hu⟩
        refine ⟨t, ?_, hu⟩
        simp only [step, emit_ticket, hm]
        exact ht
    · refine ⟨?_, ?_, ?_⟩
      · intro k t hk
        simp only [step, emit_ticket, hm] at hk ⊢
        split_ifs at hk ⊢ with h1 h2
        · exact hkey k t hk
        · exact hkey k t hk
        · simp only [mlookup_mput, hwrap] at hk
          show k ≤ wrap64 (s.next_ticket_id + 1)
          rw [hwrap]
          split_ifs at hk with hkk
          · omega
          · exact Nat.le_succ_of_le (hkey k t hk)
      · simp only [step, emit_ticket, hm]
        split_ifs with h1 h2
        · exact Nat.le_succ _
        · exact Nat.le_succ _
        · show wrap64 (s.next_ticket_id + 1) ≤ s.next_ticket_id + 1
          rw [hwrap]
      · rintro tid ⟨t, ht, hu⟩
        simp only [step, emit_ticket, hm]
        split_ifs with h1 h2
        · exact ⟨t, ht, hu⟩
        · exact ⟨t, ht, hu⟩
        · refine ⟨t, ?_, hu⟩
          simp only [mlookup_mput, hwrap]
          rw [if_neg ?_]
          · exact ht
          · have := hkey tid t ht
            omega
  | buyTicket cid b amt =>
    rcases hm : mlookup s.concerts cid with _ | c0
    · refine ⟨?_, ?_, ?_⟩
      · intro k t hk
        simp only [step, buy_ticket, hm] at hk ⊢
        exact hkey k t hk
      · simp only [step, buy_ticket, hm]
        exact Nat.le_succ _
      · rintro tid ⟨t, ht, hu⟩
        refine ⟨t, ?_, hu⟩
        simp only [step, buy_ticket, hm]
        exact ht
    · refine ⟨?_, ?_, ?_⟩
      · intro k t hk
        simp only [step, buy_ticket, hm] at hk ⊢
        split_ifs at hk ⊢ with h1 h2
        · exact hkey k t hk
        · exact hkey k t hk
        · simp only [mlookup_mput, hwrap] at hk
          show k ≤ wrap64 (s.next_ticket_id + 1)
          rw [hwrap]
          split_ifs at hk with hkk
          · omega
          · exact Nat.le_succ_of_le (hkey k t hk)
      · simp only [step, buy_ticket, hm]
        split_ifs with h1 h2
        · exact Nat.le_succ _
        · exact Nat.le_succ _
        · show wrap64 (s.next_ticket_id + 1) ≤ s.next_ticket_id + 1
          rw [hwrap]
      · rintro tid ⟨t, ht, hu⟩
        simp only [step, buy_ticket, hm]
        split_ifs with h1 h2
        · exact ⟨t, ht, hu⟩
        · exact ⟨t, ht, hu⟩
        · refine ⟨t, ?_, hu⟩
          simp only [mlookup_mput, hwrap]
          rw [if_neg ?_]
          · exact ht
          · have := hkey tid t ht
            omega
  | distributeTicket cid aid code =>
    rcases hm : mlookup s.concerts cid with _ | c0
    · refine ⟨?_, ?_, ?_⟩
      · intro k t hk
        simp only [step, distribute_ticket, hm] at hk ⊢
        exact hkey k t hk
      · simp only [step, distribute_ticket, hm]
        exact Nat.le_succ _
      · rintro tid ⟨t, ht, hu⟩
        refine ⟨t, ?_, hu⟩
        simp only [step, distribute_ticket, hm]
        exact ht
    · refine ⟨?_, ?_, ?_⟩
      · intro k t hk
        simp only [step, distribute_ticket, hm] at hk ⊢
        split_ifs at hk ⊢ with h1 h2
        · exact hkey k t hk
        · exact hkey k t hk
        · simp only [mlookup_mput, hwrap] at hk
          show k ≤ wrap64 (s.next_ticket_id + 1)
          rw [hwrap]
          split_ifs at hk with hkk
          · omega
          · exact Nat.le_succ_of_le (hkey k t hk)
      · simp only [step, distribute_ticket, hm]
        split_ifs with h1 h2
        · exact Nat.le_succ _
        · exact Nat.le_succ _
        · show wrap64 (s.next_ticket_id + 1) ≤ s.next_ticket_id + 1
          rw [hwrap]
      · rintro tid ⟨t, ht, hu⟩
        simp only [step, distribute_ticket, hm]
        split_ifs with h1 h2
        · exact ⟨t, ht, hu⟩
        · exact ⟨t, ht, hu⟩
        · refine ⟨t, ?_, hu⟩
          simp only [mlookup_mput, hwrap]
          rw [if_neg ?_]
          · exact ht
          · have := hkey tid t ht
            omega
  | transferTicket tid0 f t0 =>
    rcases hm : mlookup s.tickets tid0 with _ | tk
    · refine ⟨?_, ?_, ?_⟩
      · intro k t hk
        simp only [step, transfer_ticket, hm] at hk ⊢
        exact hkey k t hk
      · simp only [step, transfer_ticket, hm]
        exact Nat.le_succ _
      · rintro tid ⟨t, ht, hu⟩
        refine ⟨t, ?_, hu⟩
        simp only [step, transfer_ticket, hm]
        exact ht
    · refine ⟨?_, ?_, ?_⟩
      · intro k t hk
        simp only [step, transfer_ticket, hm] at hk ⊢
        split_ifs at hk ⊢ with h1
        · obtain ⟨t1, ht1⟩ := mlookup_mupdate_isSome _ _ _ _ _ hk
          exact hkey k t1 ht1
        · exact hkey k t hk
      · simp only [step, transfer_ticket, hm]
        split_ifs <;> exact Nat.le_succ _
      · rintro tid ⟨t, ht, hu⟩
        simp only [step, transfer_ticket, hm]
        split_ifs with h1
        · refine ⟨t, ?_, hu⟩
          simp only [mlookup_mupdate]
          rw [if_neg ?_]
          · exact ht
          · intro hkk
            subst hkk
            rw [ht] at hm
            injection hm with hm
            subst hm
            simp_all
        · exact ⟨t, ht, hu⟩
  | tradeTicket tid0 sl b p =>
    rcases hm : mlookup s.tickets tid0 with _ | tk
    · refine ⟨?_, ?_, ?_⟩
      · intro k t hk
        simp only [step, trade_ticket, hm] at hk ⊢
        exact hkey k t hk
      · simp only [step, trade_ticket, hm]
        exact Nat.le_succ _
      · rintro tid ⟨t, ht, hu⟩
        refine ⟨t, ?_, hu⟩
        simp only [step, trade_ticket, hm]
        exact ht
    · refine ⟨?_, ?_, ?_⟩
      · intro k t hk
        simp only [step, trade_ticket, hm] at hk ⊢
        split_ifs at hk ⊢ with h1 h2
        · exact hkey k t hk
        · exact hkey k t hk
        · obtain ⟨t1, ht1⟩ := mlookup_mupdate_isSome _ _ _ _ _ hk
          exact hkey k t1 ht1
      · simp only [step, trade_ticket, hm]
        split_ifs <;> exact Nat.le_succ _
      · rintro tid ⟨t, ht, hu⟩
        simp only [step, trade_ticket, hm]
        split_ifs with h1 h2
        · exact ⟨t, ht, hu⟩
        · exact ⟨t, ht, hu⟩
        · refine ⟨t, ?_, hu⟩
          simp only [mlookup_mupdate]
          rw [if_neg ?_]
          · exact ht
          · intro hkk
            subst hkk
            rw [ht] at hm
            injection hm with hm
            subst hm
            simp_all
  | useTicket tid0 o now =>
    rcases hm : mlookup s.tickets tid0 with _ | tk
    · refine ⟨?_, ?_, ?_⟩
      · intro k t hk
        simp only [step, use_ticket, hm] at hk ⊢
        exact hkey k t hk
      · simp only [step, use_ticket, hm]
        exact Nat.le_succ _
      · rintro tid ⟨t, ht, hu⟩
        refine ⟨t, ?_, hu⟩
        simp only [step, use_ticket, hm]
        exact ht
    · rcases hc : mlookup s.concerts tk.concert_id with _ | c
      · refine ⟨?_, ?_, ?_⟩
        · intro k t hk
          simp only [step, use_ticket, hm, hc] at hk ⊢
          split_ifs at hk ⊢ <;> exact hkey k t hk
        · simp only [step, use_ticket, hm, hc]
          split_ifs <;> exact Nat.le_succ _
        · rintro tid ⟨t, ht, hu⟩
          refine ⟨t, ?_, hu⟩
          simp only [step, use_ticket, hm, hc]
          split_ifs <;> exact ht
      · refine ⟨?_, ?_, ?_⟩
        · intro k t hk
          simp only [step, use_ticket, hm, hc] at hk ⊢
          split_ifs at hk ⊢ with h1 h2 h3
          · obtain ⟨t1, ht1⟩ := mlookup_mupdate_isSome _ _ _ _ _ hk
            exact hkey k t1 ht1
          · exact hkey k t hk
          · exact hkey k t hk
          · exact hkey k t hk
        · simp only [step, use_ticket, hm, hc]
          split_ifs <;> exact Nat.le_succ _
        · rintro tid ⟨t, ht, hu⟩
          simp only [step, use_ticket, hm, hc]
          split_ifs with h1 h2 h3
          · by_cases hkk : tid0 = tid
            · subst hkk
              rw [ht] at hm
              injection hm with hm
              refine ⟨{ t with used := true }, ?_, rfl⟩
              simp only [mlookup_mupdate, if_pos rfl, ht, hm]
              rfl
            · refine ⟨t, ?_, hu⟩
              simp only [mlookup_mupdate]
              rw [if_neg hkk]
              exact ht
          · exact ⟨t, ht, hu⟩
          · exact ⟨t, ht, hu⟩
          · exact ⟨t, ht, hu⟩
  | redeemTicket code u =>
    refine ⟨?_, ?_, ?_⟩
    · intro k t hk
      simp only [step, redeem_ticket] at hk ⊢
      have hs := redeemList_used s.tickets code u k
      rw [hk] at hs
      cases hm0 : mlookup s.tickets k <;> rw [hm0] at hs
      · simp at hs
      · exact hkey k _ hm0
    · exact Nat.le_succ _
    · rintro tid ⟨t, ht, hu⟩
      simp only [step, redeem_ticket]
      have hs := redeemList_used s.tickets code u tid
      rw [ht] at hs
      cases hl : mlookup (redeemList s.tickets code u).2 tid <;> rw [hl] at hs
      · simp at hs
      · simp only [Option.map_some', Option.some.injEq] at hs
        exact ⟨_, hl, by rw [hs, hu]⟩

theorem run_preserves_key_used (s : Ticketing) (ops : List Op) (tid : Nat)
    (hkey : ticketKeyInv s) (hlen : s.next_ticket_id + ops.length ≤ U64MAX)
    (hu : usedForever s tid) : usedForever (run s ops) tid := by
  induction ops generalizing s with
  | nil => exact hu
  | cons op rest ih =>
    simp only [List.length_cons] at hlen
    have hnext : s.next_ticket_id < U64MAX := by omega
    obtain ⟨h1, h2, h3⟩ := step_preserves_key_used s op hkey hnext
    exact ih (step s op) h1 (by omega) (h3 tid hu)

theorem ticketKeyInv_run (s : Ticketing) (hkey : ticketKeyInv s) (ops : List Op)
    (hlen : s.next_ticket_id + ops.length ≤ U64MAX) : ticketKeyInv (run s ops) := by
  induction ops generalizing s with
  | nil => exact hkey
  | cons op rest ih =>
    simp only [List.length_cons] at hlen
    have hnext : s.next_ticket_id < U64MAX := by omega
    obtain ⟨h1, h2, _⟩ := step_preserves_key_used s op hkey hnext
    exact ih (step s op) h1 (by omega)

theorem use_ticket_used_false (s : Ticketing) (tid : Nat) (o' : String) (now' : Nat)
    (h : usedForever s tid) : (use_ticket s tid o' now').1 = false := by
  obtain ⟨t, ht, hu⟩ := h
  simp [use_ticket, ht, hu]

theorem use_ticket_success_used (s : Ticketing) (tid : Nat) (o : String) (now : Nat)
    (h : (use_ticket s tid o now).1 = true) :
    usedForever (use_ticket s tid o now).2 tid := by
  rcases hm : mlookup s.tickets tid with _ | t
  · simp [use_ticket, hm] at h
  · rcases hc : mlookup s.concerts t.concert_id with _ | c
    · simp [use_ticket, hm, hc] at h
    · simp only [use_ticket, hm, hc] at h ⊢
      split_ifs at h ⊢ with h1 h2 h3
      all_goals try simp at h
      all_goals
        refine ⟨{ t with used := true }, ?_, rfl⟩
        simp only [mlookup_mupdate, if_pos rfl, hm]
        rfl

theorem use_ticket_next_ticket_id (s : Ticketing) (tid : Nat) (o : String) (now : Nat) :
    (use_ticket s tid o now).2.next_ticket_id = s.next_ticket_id := by
  rcases hm : mlookup s.tickets tid with _ | t
  · simp [use_ticket, hm]
  · rcases hc : mlookup s.concerts t.concert_id with _ | c
    · simp only [use_ticket, hm, hc]
      split_ifs <;> rfl
    · simp only [use_ticket, hm, hc]
      split_ifs <;> rfl

theorem use_ticket_keyInv (s : Ticketing) (tid0 : Nat) (o : String) (now : Nat)
    (hkey : ticketKeyInv s) : ticketKeyInv (use_ticket s tid0 o now).2 := by
  intro k t hk
  rcases hm : mlookup s.tickets tid0 with _ | tk
  · simp only [use_ticket, hm] at hk ⊢
    exact hkey k t hk
  · rcases hc : mlookup s.concerts tk.concert_id with _ | c
    · simp only [use_ticket, hm, hc] at hk ⊢
      split_ifs at hk ⊢ <;> exact hkey k t hk
    · simp only [use_ticket, hm, hc] at hk ⊢
      split_ifs at hk ⊢ with h1 h2 h3
      · obtain ⟨t1, ht1⟩ := mlookup_mupdate_isSome _ _ _ _ _ hk
        exact hkey k t1 ht1
      all_goals exact hkey k t hk

def wrapConcert : Concert :=
  { id := 1, artist_id := 1, venue_id := 1, date_ts := 1000000, ticket_price := 100,
    total_tickets := 10, tickets_issued := 1, validated_by_artist := true,
    validated_by_venue := true, tickets_sold := 0, revenue := 0, cashed_out := false }

def wrapTicket : Ticket :=
  { id := 5, concert_id := 1, owner := some "eve", used := false, price_paid := 100,
    minted_by_artist := false, redeem_code := none }

/-- A ledger in the configuration the wrapping `u64` ticket-id counter leaves
behind once it has wrapped past a surviving ticket (in the program this takes
`2^64` issuances in a release build; the configuration itself is what matters):
ticket `5` still exists while `next_ticket_id` is back down to `4`. -/
def wrapState : Ticketing :=
  { next_artist_id := 1, next_venue_id := 1, next_concert_id := 1, next_ticket_id := 4,
    artists := [], venues := [], concerts := [(1, wrapConcert)],
    tickets := [(5, wrapTicket)], balances_artist := [], balances_venue := [] }

/-- **Counterexample to C3 as stated.**  The claim's "every later `use_ticket`
call on the same ticket returns false" is not unconditional: on `wrapState`,
`use_ticket` on ticket `5` succeeds (marking it used), but the next
`buy_ticket` allocates id `wrap64 (4 + 1) = 5` — the unchecked `u64` counter
reuses a live id after wrapping — and its `HashMap::insert` overwrites the
used ticket with a fresh unused one, after which `use_ticket` on the very same
ticket id succeeds again instead of returning false. -/
theorem use_ticket_reuse_counterexample :
    (use_ticket wrapState 5 "eve" 999990).1 = true ∧
    (use_ticket (run (use_ticket wrapState 5 "eve" 999990).2 [Op.buyTicket 1 "x" 0])
        5 "x" 999995).1 = true := by
  constructor <;> rfl

/-- **C3 (amended).** `use_ticket(ticket_id, owner, now_ts)` returns `true` iff
the ticket exists, its current owner equals the given owner, it is not already
used, its concert exists and is dual-validated, and
`date_ts - 86400 ≤ now_ts ≤ date_ts` (closed interval, with saturating
subtraction as in the code); on success it sets `used = true`; and every later
`use_ticket` call on the same ticket returns `false` regardless of `now_ts`
for any further operation sequence that cannot wrap the `u64` ticket-id
counter (at most `2^64 - 1 - next_ticket_id` further calls — every physically
realizable execution), stated under the ticket-key invariant `ticketKeyInv`,
which the last conjunct shows holds in every state reachable by at most
`2^64 - 1` operations.  Unconditional permanence fails: once the wrapping
counter passes a surviving ticket, a fresh insert overwrites it (see the
counterexample). -/
theorem use_ticket_spec (s : Ticketing) (tid : Nat) (owner : String) (now : Nat) :
    ((use_ticket s tid owner now).1 = true ↔
      ∃ t, mlookup s.tickets tid = some t ∧ t.owner = some owner ∧ t.used = false ∧
        ∃ c, mlookup s.concerts t.concert_id = some c ∧
          c.validated_by_artist = true ∧ c.validated_by_venue = true ∧
          c.date_ts - 86400 ≤ now ∧ now ≤ c.date_ts) ∧
    (∀ t, mlookup s.tickets tid = some t → (use_ticket s tid owner now).1 = true →
      mlookup (use_ticket s tid owner now).2.tickets tid = some { t with used := true }) ∧
    (ticketKeyInv s → (use_ticket s tid owner now).1 = true →
      ∀ ops o' now', s.next_ticket_id + ops.length ≤ U64MAX →
        (use_ticket (run (use_ticket s tid owner now).2 ops) tid o' now').1 = false) ∧
    (∀ ops : List Op, ops.length ≤ U64MAX → ticketKeyInv (run initState ops)) := by
  refine ⟨⟨?_, ?_⟩, ?_, ?_, ?_⟩
  · intro h
    rcases hm : mlookup s.tickets tid with _ | t
    · simp [use_ticket, hm] at h
    · rcases hc : mlookup s.concerts t.concert_id with _ | c
      · simp [use_ticket, hm, hc] at h
      · simp only [use_ticket, hm, hc] at h
        split_ifs at h with h1 h2 h3
        all_goals try simp at h
        all_goals exact ⟨t, rfl, h1.1, h1.2, c, hc, h2.1, h2.2, h3.1, h3.2⟩
  · rintro ⟨t, hm, ho, hu, c, hc, hva, hvv, hw1, hw2⟩
    simp [use_ticket, hm, hc, ho, hu, hva, hvv, hw1, hw2]
  · intro t hm h
    rcases hc : mlookup s.concerts t.concert_id with _ | c
    · simp [use_ticket, hm, hc] at h
    · simp only [use_ticket, hm, hc] at h ⊢
      split_ifs at h ⊢ with h1 h2 h3
      all_goals try simp at h
      all_goals
        simp only [mlookup_mupdate, if_pos rfl, hm]
        rfl
  · intro hkey h ops o' now' hlen
    have hused : usedForever (use_ticket s tid owner now).2 tid :=
      use_ticket_success_used s tid owner now h
    have hkey' : ticketKeyInv (use_ticket s tid owner now).2 :=
      use_ticket_keyInv s tid owner now hkey
    have hlen' : (use_ticket s tid owner now).2.next_ticket_id + ops.length ≤ U64MAX := by
      rw [use_ticket_next_ticket_id]
      exact hlen
    exact use_ticket_used_false _ tid o' now'
      (run_preserves_key_used _ ops tid hkey' hlen' hused)
  · intro ops hlen
    refine ticketKeyInv_run initState (fun k t hk => by simp [initState, mlookup] at hk)
      ops ?_
    simpa [initState] using hlen

def demoUse : Ticketing := (buy_ticket demoValidated 1 "eve" 100).2

def demoEveTicket : Ticket :=
  { id := 1, concert_id := 1, owner := some "eve", used := false, price_paid := 100,
    minted_by_artist := false, redeem_code := none }

/-- Witness for the amended C3: inside the 24-hour window the demo ticket is
used successfully, `used` flips to `true`, and after two further ledger
operations (far below the counter-wrap bound) a second `use_ticket` on the
same ticket returns `false`. -/
theorem use_ticket_spec_witness :
    (use_ticket demoUse 1 "eve" 999990).1 = true ∧
    mlookup (use_ticket demoUse 1 "eve" 999990).2.tickets 1 =
      some { id := 1, concert_id := 1, owner := some "eve", used := true, price_paid := 100,
             minted_by_artist := false, redeem_code := none } ∧
    (use_ticket (run (use_ticket demoUse 1 "eve" 999990).2
        [.transferTicket 1 "eve" "mallory", .redeemTicket "X" "y"]) 1 "eve" 999995).1 =
      false := by
  obtain ⟨hiff, heff, hperm, hreach⟩ := use_ticket_spec demoUse 1 "eve" 999990
  have hsucc : (use_ticket demoUse 1 "eve" 999990).1 = true :=
    hiff.mpr ⟨demoEveTicket, rfl, rfl, rfl, demoSoldConcert, rfl, rfl, rfl, by decide,
      by decide⟩
  have hkey : ticketKeyInv demoUse := by
    have h0 := hreach (demoSetup ++ [Op.buyTicket 1 "eve" 100]) (by decide)
    exact h0
  exact ⟨hsucc, heff demoEveTicket rfl hsucc,
    hperm hkey hsucc [.transferTicket 1 "eve" "mallory", .redeemTicket "X" "y"] "eve" 999995
      (by decide)⟩

/-! ## C8: which updates saturate and which wrap -/

/-- Saturating `u64` multiplication (what "saturating arithmetic throughout"
would prescribe for the settlement product). -/
def sat64mul (a b : Nat) : Nat := min (a * b) U64MAX

/-- Balance credit with a saturating `u64` addition. -/
def credit_saturating (m : List (Nat × Nat)) (k : Nat) (amount : Nat) : List (Nat × Nat) :=
  match mlookup m k with
  | some _ => mupdate m k (fun b => sat64add b amount)
  | none => mput m k amount

/-- `cash_out` as the spec's words for C8 describe it ("numeric fields use
saturating arithmetic throughout"): identical to `cash_out` from the source
except that the `revenue * venue_cut_bps` product and the balance additions
saturate instead of using the code's unchecked (wrapping) `u64` `*` and `+=`.
Defined only to be compared against the code's `cash_out`. -/
def cash_out_saturating (s : Ticketing) (concert_id now_ts : Nat) : Bool × Ticketing :=
  match mlookup s.concerts concert_id with
  | none => (false, s)
  | some c =>
    if c.cashed_out = true ∨ now_ts < c.date_ts then (false, s)
    else
      let venue_cut := sat64mul c.revenue (venueBps s c.venue_id) / 10000
      let artist_cut := c.revenue - venue_cut
      (true,
        { s with
          balances_artist := credit_saturating s.balances_artist c.artist_id artist_cut,
          balances_venue := credit_saturating s.balances_venue c.venue_id venue_cut,
          concerts := mupdate s.concerts concert_id (fun c => { c with cashed_out := true }) })

/-- A reachable ledger on which the settlement product overflows `u64`: one
validated concert at a venue with `venue_cut_bps = 20000`, and a single
`buy_ticket` for `u64::MAX`, saturating `revenue` at `u64::MAX`. -/
def demoC8 : Ticketing :=
  run initState [.createArtist "A" "band", .createVenue "V" 1000 20000 none,
    .createConcert 1 1 1000000 100 1, .validateByArtist 1 1, .validateByVenue 1 1,
    .buyTicket 1 "whale" U64MAX]

/-- A ledger whose artist-id counter sits at `u64::MAX`. -/
def maxCounterState : Ticketing :=
  { initState with next_artist_id := U64MAX }

/-- **Counterexample to C8 as stated.** Not all numeric updates use saturating
arithmetic.  On the reachable ledger `demoC8` the `revenue * venue_cut_bps`
product inside `cash_out` overflows `u64` and wraps, so the artist balance the
code credits (`18444899399302180662`) differs from the one prescribed by the
all-saturating reading of the spec (`18444899399302180660`); in a debug build
this very multiplication aborts with an overflow panic instead of never
aborting.  Likewise the id counters are unchecked `u64 += 1`, not saturating:
with `next_artist_id` at `u64::MAX`, `create_artist` wraps the counter to `0`,
whereas the saturating update would leave it at `u64::MAX`. -/
theorem saturating_arithmetic_counterexample :
    (cash_out demoC8 1 1000000).1 = true ∧
    balance_artist (cash_out demoC8 1 1000000).2 1 = 18444899399302180662 ∧
    balance_artist (cash_out_saturating demoC8 1 1000000).2 1 = 18444899399302180660 ∧
    balance_artist (cash_out demoC8 1 1000000).2 1 ≠
      balance_artist (cash_out_saturating demoC8 1 1000000).2 1 ∧
    (create_artist maxCounterState "A" "band").2.next_artist_id = 0 ∧
    sat64add maxCounterState.next_artist_id 1 = U64MAX ∧
    (create_artist maxCounterState "A" "band").2.next_artist_id ≠
      sat64add maxCounterState.next_artist_id 1 := by
  refine ⟨rfl, rfl, rfl, by decide, rfl, by decide, by decide⟩

/-- **C8 (amended).** The concert counter and revenue updates in `buy_ticket`
and `distribute_ticket` (`tickets_sold`, `tickets_issued`, `revenue`) use
saturating arithmetic, but the remaining numeric updates are unchecked machine
arithmetic that wraps (in release builds; it aborts in debug builds) instead
of saturating: `emit_ticket`'s `tickets_issued` increment and `buy_ticket`'s
`total_tickets_sold` increment are plain `u32` `+=`, `cash_out`'s
`revenue * venue_cut_bps` product and its balance credits are plain `u64`
`*` / `+=`, and the four `next_*_id` counters are plain `u64` `+=`. -/
theorem saturating_arithmetic_amended (s : Ticketing) (cid aid now : Nat) (b : String)
    (amt : Nat) (c : Concert) (code : Option String) (rcode : String)
    (hc : mlookup s.concerts cid = some c)
    (hva : c.validated_by_artist = true) (hvv : c.validated_by_venue = true)
    (hsupply : c.tickets_issued < c.total_tickets)
    (haid : c.artist_id = aid)
    (hcash : c.cashed_out = false) (hdate : c.date_ts ≤ now) :
    (mlookup (buy_ticket s cid b amt).2.concerts cid =
      some { c with tickets_sold := min (c.tickets_sold + 1) U32MAX,
                    tickets_issued := min (c.tickets_issued + 1) U32MAX,
                    revenue := min (c.revenue + amt) U64MAX }) ∧
    (∀ a, mlookup s.artists aid = some a →
      mlookup (buy_ticket s cid b amt).2.artists aid =
        some { a with total_tickets_sold := (a.total_tickets_sold + 1) % 4294967296 }) ∧
    (mlookup (emit_ticket s cid aid code).2.concerts cid =
      some { c with tickets_issued := (c.tickets_issued + 1) % 4294967296 }) ∧
    (mlookup (distribute_ticket s cid aid rcode).2.concerts cid =
      some { c with tickets_issued := min (c.tickets_issued + 1) U32MAX }) ∧
    (balance_artist (cash_out s cid now).2 c.artist_id =
      (balance_artist s c.artist_id +
        (c.revenue - (c.revenue * venueBps s c.venue_id) % 18446744073709551616 / 10000)) %
        18446744073709551616) ∧
    (∀ na ta : String, (create_artist s na ta).2.next_artist_id =
      (s.next_artist_id + 1) % 18446744073709551616) ∧
    (∀ nv : String, ∀ cap bps : Nat, ∀ nd : Option Nat,
      (create_venue s nv cap bps nd).2.next_venue_id =
        (s.next_venue_id + 1) % 18446744073709551616) ∧
    (∀ a1 v1 d1 p1 t1 : Nat, (create_concert s a1 v1 d1 p1 t1).2.next_concert_id =
      (s.next_concert_id + 1) % 18446744073709551616) ∧
    ((buy_ticket s cid b amt).2.next_ticket_id =
      (s.next_ticket_id + 1) % 18446744073709551616) := by
  subst haid
  have hflags : ¬(c.validated_by_artist = false ∨ c.validated_by_venue = false) := by
    simp [hva, hvv]
  have hns : ¬ c.total_tickets ≤ c.tickets_issued := Nat.not_le.mpr hsupply
  have hemit : ¬(c.artist_id ≠ c.artist_id ∨ c.validated_by_artist = false
      ∨ c.validated_by_venue = false) := by
    simp [hva, hvv]
  have hcond : ¬(c.cashed_out = true ∨ now < c.date_ts) := by
    push_neg
    exact ⟨by simp [hcash], hdate⟩
  refine ⟨?_, ?_, ?_, ?_, ?_, fun na ta => rfl, fun nv cap bps nd => rfl,
    fun a1 v1 d1 p1 t1 => rfl, ?_⟩
  · simp only [buy_ticket, hc]
    rw [if_neg hflags, if_neg hns]
    simp [mlookup_mupdate, hc, sat32add, sat64add]
  · intro a ha
    simp only [buy_ticket, hc]
    rw [if_neg hflags, if_neg hns]
    simp [mlookup_mupdate, ha, wrap32]
  · simp only [emit_ticket, hc]
    rw [if_neg hemit, if_neg hns]
    simp [mlookup_mupdate, hc, wrap32]
  · simp only [distribute_ticket, hc]
    rw [if_neg hemit, if_neg hns]
    simp [mlookup_mupdate, hc, sat32add]
  · simp only [cash_out, hc]
    rw [if_neg hcond]
    simp [balance_artist, balance_credit, wrap64]
  · simp only [buy_ticket, hc]
    rw [if_neg hflags, if_neg hns]
    rfl

/-- Witness for the amended C8: the concrete updates on the validated demo
concert (buying for `7`, one artist mint, one distribution, a settlement with
zero revenue, and the id counters each advancing by one from their small demo
values, where the `u64` wrap is the identity). -/
theorem saturating_arithmetic_amended_witness :
    mlookup (buy_ticket demoValidated 1 "zoe" 7).2.concerts 1 =
      some { demoValidConcert with tickets_sold := 1, tickets_issued := 1, revenue := 7 } ∧
    mlookup (buy_ticket demoValidated 1 "zoe" 7).2.artists 1 =
      some { id := 1, name := "Artist", artist_type := "band", total_tickets_sold := 1 } ∧
    mlookup (emit_ticket demoValidated 1 1 none).2.concerts 1 =
      some { demoValidConcert with tickets_issued := 1 } ∧
    mlookup (distribute_ticket demoValidated 1 1 "R").2.concerts 1 =
      some { demoValidConcert with tickets_issued := 1 } ∧
    balance_artist (cash_out demoValidated 1 1000000).2 1 = 0 ∧
    (create_artist demoValidated "B" "dj").2.next_artist_id = 2 ∧
    (create_venue demoValidated "W" 5 100 none).2.next_venue_id = 2 ∧
    (create_concert demoValidated 1 1 5 5 5).2.next_concert_id = 2 ∧
    (buy_ticket demoValidated 1 "zoe" 7).2.next_ticket_id = 1 := by
  obtain ⟨h1, h2, h3, h4, h5, h6, h7, h8, h9⟩ :=
    saturating_arithmetic_amended demoValidated 1 1 1000000
      "zoe" 7 demoValidConcert none "R" rfl rfl rfl (by decide) rfl rfl (by decide)
  refine ⟨h1, ?_, h3, h4, h5, h6 "B" "dj", h7 "W" 5 100 none, h8 1 1 5 5 5, h9⟩
  exact h2 ⟨1, "Artist", "band", 0⟩ rfl
